import Mathlib

/-
Verification of the seat inventory and reservation engine of the ticketing
repository (richest variant: system.py).  The CSV-backed seat store, the
pricing table, the identity validators and the reservation operations are
shallowly embedded: each seat record is the string-valued row shape of the
CSV file, the in-memory seat dict of one service is a total function from
seat ids to records, and every interactive operation of the source becomes a
function from the current state (plus the already-collected, validated
inputs) to either an error or the committed next state.  Python float
arithmetic in the pricing table is embedded as exact rational arithmetic; at
every configured price and discount fraction of the program the
double-precision results coincide with the rational ones.
-/

namespace Ticketing

/-- One seat record, mirroring the CSV row shape of the source
(FIELDNAMES = Seat, Status, Name, Timestamp, TicketType, BasePrice,
FinalPrice, Contact, Address, IDType, IDNumber, VerifiedAt); every field is
a string and a blank string means "not applicable". -/
structure SeatRec where
  status : String
  name : String
  timestamp : String
  ticketType : String
  basePrice : String
  finalPrice : String
  contact : String
  address : String
  idType : String
  idNumber : String
  verifiedAt : String
  deriving DecidableEq, Repr

/-- The record ensure_csv writes for every seat of a fresh file: Available
with every other field blank. -/
def initRec : SeatRec :=
  { status := "Available", name := "", timestamp := "", ticketType := ""
  , basePrice := "", finalPrice := "", contact := "", address := ""
  , idType := "", idNumber := "", verifiedAt := "" }

/-- A record with every booking field cleared, as written by cancellation,
seat management and the expiry sweep; only the status and the timestamp
differ between those call sites. -/
def clearedRec (status ts : String) : SeatRec :=
  { status := status, name := "", timestamp := ts, ticketType := ""
  , basePrice := "", finalPrice := "", contact := "", address := ""
  , idType := "", idNumber := "", verifiedAt := "" }

/-- cinema_layout: rows 1..10, letters A..F. -/
def cinema_layout : List String :=
  (List.range' 1 10).flatMap (fun r => ["A", "B", "C", "D", "E", "F"].map (fun s => toString r ++ s))

/-- bus_layout: rows 1..12, letters A..D. -/
def bus_layout : List String :=
  (List.range' 1 12).flatMap (fun r => ["A", "B", "C", "D"].map (fun s => toString r ++ s))

/-- airplane_layout: rows 1..16, letters A..F. -/
def airplane_layout : List String :=
  (List.range' 1 16).flatMap (fun r => ["A", "B", "C", "D", "E", "F"].map (fun s => toString r ++ s))

/-- LAYOUT_FUNCTIONS, as a function from the service key. -/
def layoutFor (svc : String) : List String :=
  if svc = "C" then cinema_layout
  else if svc = "B" then bus_layout
  else if svc = "A" then airplane_layout
  else []

/-- Python str.strip over the character list: drop leading and trailing
whitespace. -/
def pyStrip (s : String) : String :=
  String.mk (((s.toList.dropWhile Char.isWhitespace).reverse.dropWhile Char.isWhitespace).reverse)

/-- Python str.upper over the character list. -/
def pyUpper (s : String) : String :=
  String.mk (s.toList.map Char.toUpper)

/-- normalize_seat_id_input: strip, uppercase, and reorder digits before
letters when both are present. -/
def normalize_seat_id_input (raw : String) : String :=
  if raw = "" then raw
  else
    let cs := (pyUpper (pyStrip raw)).toList
    let letters := cs.filter Char.isAlpha
    let digits := cs.filter Char.isDigit
    if digits.isEmpty || letters.isEmpty then String.mk cs else String.mk (digits ++ letters)

/-- A configured pricing value: the source distinguishes int literals (flat
prices) from float literals (discount fractions) with isinstance checks, so
the embedding keeps the tag.  Float literals are embedded as the exact
rationals they denote in the source text; at the configured values the
double-precision arithmetic of the source agrees with rational
arithmetic. -/
inductive PVal where
  | ival : Int → PVal
  | fval : ℚ → PVal
  deriving DecidableEq, Repr

/-- The numeric value of a pricing entry. -/
def PVal.toRat : PVal → ℚ
  | .ival n => (n : ℚ)
  | .fval q => q

/-- Whether the configured literal is a float (isinstance(val, float)). -/
def PVal.isFloat : PVal → Bool
  | .ival _ => false
  | .fval _ => true

/-- The PRICING table of the source: per service, per ticket type, either a
flat price or a discount fraction. -/
def PRICING : List (String × List (String × PVal)) :=
  [ ("C", [("Regular", .ival 150), ("VIP", .ival 300), ("Senior", .fval (1/5))
          , ("Student", .fval (1/10)), ("PWD", .fval (1/5)), ("Child", .fval (1/2))])
  , ("B", [("Regular", .ival 100), ("VIP", .ival 150), ("Senior", .fval (1/5))
          , ("Student", .fval (1/10)), ("PWD", .fval (1/5)), ("Child", .fval (1/2))])
  , ("A", [("Regular", .ival 1200), ("VIP", .ival 2000), ("Senior", .fval (1/5))
          , ("Student", .fval (1/10)), ("PWD", .fval (1/5)), ("Child", .fval (1/2))]) ]

/-- PRICING[service_key]; the source only ever indexes with the three
configured keys, so an unknown key maps to the empty table. -/
def pricingFor (svc : String) : List (String × PVal) :=
  (PRICING.lookup svc).getD []

/-- mapping.get("Regular", 0) as a rational. -/
def regularPrice (svc : String) : ℚ :=
  (((pricingFor svc).lookup "Regular").getD (.ival 0)).toRat

/-- compute_price: an unconfigured ticket type falls back to the Regular
price; a float fraction strictly between 0 and 1 discounts the Regular
price; any other configured value that is at least 1 is a flat final price
over the Regular base; the remaining fallback returns the value for both
components. -/
def compute_price (service_key ticket_type : String) : ℚ × ℚ :=
  match (pricingFor service_key).lookup ticket_type with
  | none => (regularPrice service_key, regularPrice service_key)
  | some val =>
    if val.isFloat = true ∧ 0 < val.toRat ∧ val.toRat < 1 then
      let base := regularPrice service_key
      (base, base * (1 - val.toRat))
    else
      let base := regularPrice service_key
      if 1 ≤ val.toRat then (base, val.toRat)
      else (val.toRat, val.toRat)

/-- list_ticket_types: the configured type names of a service. -/
def list_ticket_types (svc : String) : List String :=
  (pricingFor svc).map Prod.fst

/-- Two-decimal rendering of a price, as the f-string with format .2f used
by every write of a price into a seat record.  The cent count is the
integer part of q * 100 + 1/2 computed on the rational representation;
every price the program produces is an exact nonnegative multiple of a
centavo, where this agrees with the f-string rendering. -/
def formatPrice (q : ℚ) : String :=
  let r := q * 100 + 1 / 2
  let cents : Int := r.num / (r.den : Int)
  let whole := cents / 100
  let frac := (cents % 100).natAbs
  toString whole ++ "." ++ (if frac < 10 then "0" ++ toString frac else toString frac)

theorem append_dot_ne_empty (a b : String) : a ++ "." ++ b ≠ "" := by
  intro h
  have h1 : (a ++ "." ++ b).length = (0 : Nat) := by rw [h]; rfl
  rw [String.length_append, String.length_append] at h1
  have h2 : ("." : String).length = 1 := rfl
  omega

theorem formatPrice_ne_empty (q : ℚ) : formatPrice q ≠ "" := by
  unfold formatPrice
  exact append_dot_ne_empty _ _

/-- pretty_price: the peso rendering with comma grouping used in audit
details and console output, for the nonnegative prices the program
produces. -/
def groupRev : List Char → List Char
  | a :: b :: c :: d :: rest => a :: b :: c :: ',' :: groupRev (d :: rest)
  | l => l

/-- pretty_price of the f-string with format comma and .2f over the peso
sign. -/
def pretty_price (q : ℚ) : String :=
  match (formatPrice q).splitOn "." with
  | [w, d] => "₱" ++ String.mk (groupRev w.toList.reverse).reverse ++ "." ++ d
  | _ => "₱" ++ formatPrice q

/-- The verified customer data returned by get_verified_personal_details. -/
structure CustomerData where
  full_name : String
  id_type : String
  id_number : String
  contact : String
  address : String
  verified_at : String
  deriving DecidableEq, Repr

/-- The per-passenger data collected by
get_verified_personal_details_individual for the enhanced bulk path: the
identity fields plus the individually chosen ticket type (the base and
final prices it also carries are recomputed from the ticket type by
compute_price at write time, so the embedding derives them). -/
structure BulkPassenger where
  full_name : String
  id_type : String
  id_number : String
  contact : String
  address : String
  ticket_type : String
  verified_at : String
  deriving DecidableEq, Repr

/-- One row of booking_history.csv as appended by save_booking_history. -/
structure AuditRec where
  timestamp : String
  service : String
  seat : String
  action : String
  details : String
  deriving DecidableEq, Repr

def mkAudit (ts svc seat action details : String) : AuditRec :=
  { timestamp := ts, service := svc, seat := seat, action := action, details := details }

/-- The state of one service: its key, the seat mapping (the loaded CSV
dict, whose key set the program keeps equal to the layout), and the
append-only booking history. -/
structure Sys where
  svc : String
  seats : String → SeatRec
  history : List AuditRec

/-- Dict assignment seats[k] = v. -/
def setSeat (m : String → SeatRec) (k : String) (v : SeatRec) : String → SeatRec :=
  fun s => if s = k then v else m s

/-- The state of a freshly materialized service: every seat Available with
blank fields, empty history. -/
def initSys (svc : String) : Sys :=
  { svc := svc, seats := fun _ => initRec, history := [] }

/-- The record written by a verified single-seat reservation. -/
def takenRec (c : CustomerData) (tt : String) (base final : ℚ) (ts : String) : SeatRec :=
  { status := "Taken", name := c.full_name, timestamp := ts, ticketType := tt
  , basePrice := formatPrice base, finalPrice := formatPrice final
  , contact := c.contact, address := c.address, idType := c.id_type
  , idNumber := c.id_number, verifiedAt := c.verified_at }

/-- The record written for one seat of an enhanced bulk reservation; the
prices come from compute_price on the ticket type the passenger chose. -/
def bulkRec (svc : String) (p : BulkPassenger) (ts : String) : SeatRec :=
  { status := "Taken", name := p.full_name, timestamp := ts, ticketType := p.ticket_type
  , basePrice := formatPrice (compute_price svc p.ticket_type).1
  , finalPrice := formatPrice (compute_price svc p.ticket_type).2
  , contact := p.contact, address := p.address, idType := p.id_type
  , idNumber := p.id_number, verifiedAt := p.verified_at }

/-- The error outcomes of the engine operations: in the source these are
the error-message-and-reprompt branches that leave the store untouched. -/
inductive RErr where
  | invalidSeat
  | alreadyTaken (occupant : String)
  | seatUnavailable
  | notReserved
  | targetInvalid
  deriving DecidableEq, Repr

/-- The committed state of a successful single-seat reservation: the
verified Taken record is written and the audit entry appended. -/
def reserveCommit (st : Sys) (sid : String) (c : CustomerData) (tt ts : String) : Sys :=
  let p := compute_price st.svc tt
  { st with
    seats := setSeat st.seats sid (takenRec c tt p.1 p.2 ts)
    , history := st.history ++ [mkAudit ts st.svc sid "VERIFIED_RESERVATION"
        (c.full_name ++ " - " ++ tt ++ " - " ++ pretty_price p.2 ++ " - ID: " ++ c.id_type)] }

/-- reserve_seat, one validated pass: normalize the entered seat id, reject
an id outside the loaded mapping, reject a Taken or Unavailable seat,
otherwise commit the verified Taken record; the caller-side identity
verification and ticket-type choice are the already validated arguments. -/
def reserve_seat (st : Sys) (raw : String) (c : CustomerData) (tt ts : String) :
    Except RErr Sys :=
  let sid := normalize_seat_id_input raw
  if sid ∈ layoutFor st.svc then
    let info := st.seats sid
    if info.status = "Taken" then .error (.alreadyTaken info.name)
    else if info.status = "Unavailable" then .error .seatUnavailable
    else .ok (reserveCommit st sid c tt ts)
  else .error .invalidSeat

/-- cancel_reservation, one validated pass: only a Taken seat of the layout
can be cancelled; the seat is cleared to Available with a fresh timestamp
and a CANCELLATION audit entry is appended. -/
def cancel_reservation (st : Sys) (raw ts : String) : Except RErr Sys :=
  let sid := normalize_seat_id_input raw
  if sid ∈ layoutFor st.svc ∧ (st.seats sid).status = "Taken" then
    let info := st.seats sid
    .ok { st with
      seats := setSeat st.seats sid (clearedRec "Available" ts)
      , history := st.history ++ [mkAudit ts st.svc sid "CANCELLATION"
          (info.name ++ " - ID: " ++ info.idType)] }
  else .error .notReserved

/-- The record the move option writes into the target seat: every booking
field of the source record with a fresh timestamp. -/
def movedRec (info : SeatRec) (ts : String) : SeatRec :=
  { status := "Taken", name := info.name, timestamp := ts
  , ticketType := info.ticketType, basePrice := info.basePrice
  , finalPrice := info.finalPrice, contact := info.contact
  , address := info.address, idType := info.idType
  , idNumber := info.idNumber, verifiedAt := info.verifiedAt }

/-- The committed state of a successful move: target written with the moved
record, source cleared to Available, one SEAT_MOVE audit entry. -/
def moveCommit (st : Sys) (sid tid ts : String) : Sys :=
  let info := st.seats sid
  { st with
    seats := setSeat (setSeat st.seats tid (movedRec info ts)) sid (clearedRec "Available" ts)
    , history := st.history ++ [mkAudit ts st.svc sid "SEAT_MOVE"
        (info.name ++ " from " ++ sid ++ " to " ++ tid)] }

/-- update_reservation, option 2 (move to another seat): the source seat
must be Taken and the target Available; the target receives every booking
field of the source with a fresh timestamp, the source is cleared to
Available; the two now_str calls of the source are modelled with the one
timestamp argument. -/
def move_reservation (st : Sys) (fromRaw toRaw ts : String) : Except RErr Sys :=
  let sid := normalize_seat_id_input fromRaw
  if sid ∈ layoutFor st.svc ∧ (st.seats sid).status = "Taken" then
    let tid := normalize_seat_id_input toRaw
    if tid ∈ layoutFor st.svc ∧ (st.seats tid).status = "Available" then
      .ok (moveCommit st sid tid ts)
    else .error .targetInvalid
  else .error .notReserved

/-- The whitespace collapsing applied to an updated client name: split on
whitespace, drop empties, rejoin with single spaces. -/
def collapse_spaces (s : String) : String :=
  String.intercalate " " ((s.split Char.isWhitespace).filter (fun w => w ≠ ""))

/-- update_reservation, option 1 (change client name) with an already
validated raw name (nonempty after strip, letters and spaces only). -/
def rename_reservation (st : Sys) (raw newName ts : String) : Except RErr Sys :=
  let sid := normalize_seat_id_input raw
  if sid ∈ layoutFor st.svc ∧ (st.seats sid).status = "Taken" then
    let info := st.seats sid
    let n := collapse_spaces (pyStrip newName)
    .ok { st with
      seats := setSeat st.seats sid { info with name := n, timestamp := ts }
      , history := st.history ++ [mkAudit ts st.svc sid "NAME_UPDATE"
          (info.name ++ " -> " ++ n)] }
  else .error .notReserved

/-- update_reservation, option 3 (change ticket type): recompute the prices
with compute_price and refresh the timestamp. -/
def retype_reservation (st : Sys) (raw tt ts : String) : Except RErr Sys :=
  let sid := normalize_seat_id_input raw
  if sid ∈ layoutFor st.svc ∧ (st.seats sid).status = "Taken" then
    let info := st.seats sid
    let p := compute_price st.svc tt
    .ok { st with
      seats := setSeat st.seats sid
        { info with ticketType := tt, basePrice := formatPrice p.1,
                    finalPrice := formatPrice p.2, timestamp := ts }
      , history := st.history ++ [mkAudit ts st.svc sid "TICKET_TYPE_UPDATE"
          (info.ticketType ++ " -> " ++ tt)] }
  else .error .notReserved

/-- update_reservation, option 4 (update contact details) with already
validated contact data. -/
def update_contact (st : Sys) (raw contact address ts : String) : Except RErr Sys :=
  let sid := normalize_seat_id_input raw
  if sid ∈ layoutFor st.svc ∧ (st.seats sid).status = "Taken" then
    let info := st.seats sid
    .ok { st with
      seats := setSeat st.seats sid { info with contact := contact, address := address, timestamp := ts }
      , history := st.history ++ [mkAudit ts st.svc sid "CONTACT_UPDATE" "Contact details updated"] }
  else .error .notReserved

/-- set_unavailable, choice 1 (mark one seat unavailable): any seat of the
layout, whatever its status, is cleared to Unavailable. -/
def set_seat_unavailable (st : Sys) (raw ts : String) : Except RErr Sys :=
  let sid := normalize_seat_id_input raw
  if sid ∈ layoutFor st.svc then
    .ok { st with
      seats := setSeat st.seats sid (clearedRec "Unavailable" ts)
      , history := st.history ++ [mkAudit ts st.svc sid "SEAT_UNAVAILABLE" "Marked as unavailable"] }
  else .error .invalidSeat

/-- set_unavailable, choice 2 (reset one seat to available). -/
def reset_seat_available (st : Sys) (raw ts : String) : Except RErr Sys :=
  let sid := normalize_seat_id_input raw
  if sid ∈ layoutFor st.svc then
    .ok { st with
      seats := setSeat st.seats sid (clearedRec "Available" ts)
      , history := st.history ++ [mkAudit ts st.svc sid "SEAT_RESET" "Reset to available"] }
  else .error .invalidSeat

/-- show_available_seats: the seats whose record is Available, in dict
insertion order, which the program keeps equal to layout order. -/
def availableSeats (st : Sys) : List String :=
  (layoutFor st.svc).filter (fun s => (st.seats s).status == "Available")

/-- The write loop shared by both bulk reservation paths: for each prepared
(seat id, record) write, assign the record if the seat id was in the
available list computed from the load, otherwise skip it. -/
def reserveLoop (avail : List String) (m : String → SeatRec)
    (ws : List (String × SeatRec)) : String → SeatRec :=
  ws.foldl (fun acc w => if avail.contains w.1 then setSeat acc w.1 w.2 else acc) m

/-- bulk_reserve_enhanced, one validated pass: normalize the entered seat
ids, abort with no write when any of them is not in the available list,
otherwise write every seat with its own passenger record, append one audit
entry per seat, and commit the whole mapping once with save_seats. -/
def bulk_reserve_enhanced (st : Sys) (pairs : List (String × BulkPassenger)) (ts : String) :
    Except RErr Sys :=
  let avail := availableSeats st
  let seat_ids := pairs.map (fun pr => normalize_seat_id_input pr.1)
  if seat_ids.filter (fun s => !avail.contains s) ≠ [] then .error .invalidSeat
  else
    .ok { st with
      seats := reserveLoop avail st.seats
        (pairs.map (fun pr => (normalize_seat_id_input pr.1, bulkRec st.svc pr.2 ts)))
      , history := st.history ++
          (pairs.filter (fun pr => avail.contains (normalize_seat_id_input pr.1))).map
            (fun pr => mkAudit ts st.svc (normalize_seat_id_input pr.1)
              "ENHANCED_BULK_RESERVATION"
              (pr.2.full_name ++ " - " ++ pr.2.ticket_type ++ " - "
                ++ pretty_price (compute_price st.svc pr.2.ticket_type).2)) }

/-- bulk_reserve (legacy), one validated pass: one customer and one ticket
type for every entered seat; the same all-or-nothing availability check and
single final save_seats as the enhanced path. -/
def bulk_reserve (st : Sys) (raws : List String) (c : CustomerData) (tt ts : String) :
    Except RErr Sys :=
  let avail := availableSeats st
  let seat_ids := raws.map normalize_seat_id_input
  if seat_ids.filter (fun s => !avail.contains s) ≠ [] then .error .invalidSeat
  else
    let p := compute_price st.svc tt
    .ok { st with
      seats := reserveLoop avail st.seats
        (seat_ids.map (fun sid => (sid, takenRec c tt p.1 p.2 ts)))
      , history := st.history ++
          (seat_ids.filter (fun sid => avail.contains sid)).map
            (fun sid => mkAudit ts st.svc sid "BULK_RESERVATION"
              (c.full_name ++ " - " ++ tt ++ " - " ++ pretty_price p.2)) }

/-- The expiry test of check_booking_timeout on one record: Taken, with a
nonblank timestamp that parses, booked more than 24 hours (86400 seconds)
before the current time.  strptime is modelled by the parse argument,
which returns the booking time in seconds or none for an unparsable
string. -/
def expired_booking (parse : String → Option Int) (now : Int) (r : SeatRec) : Bool :=
  r.status == "Taken" && r.timestamp != "" &&
    (match parse r.timestamp with
     | some t => decide ((86400 : Int) < now - t)
     | none => false)

/-- check_booking_timeout: every expired Taken seat of the loaded mapping is
cleared to Available with a blank timestamp and an AUTO_CANCELLATION audit
entry; every other seat is left as it is; the mapping is saved once. -/
def check_booking_timeout (st : Sys) (parse : String → Option Int) (now : Int) (ts : String) :
    Sys :=
  { st with
    seats := fun s =>
      if (layoutFor st.svc).contains s && expired_booking parse now (st.seats s)
      then clearedRec "Available" ""
      else st.seats s
    , history := st.history ++
        ((layoutFor st.svc).filter (fun s => expired_booking parse now (st.seats s))).map
          (fun s => mkAudit ts st.svc s "AUTO_CANCELLATION"
            ((st.seats s).name ++ " - Booking expired")) }

/-- The engine operations of the source that write the seat store, with the
validated interactive inputs as data. -/
inductive Op where
  | reserve (raw : String) (c : CustomerData) (tt ts : String)
  | cancel (raw ts : String)
  | move (fromRaw toRaw ts : String)
  | rename (raw newName ts : String)
  | retype (raw tt ts : String)
  | contactUpd (raw contact address ts : String)
  | unavail (raw ts : String)
  | reset (raw ts : String)
  | bulkEnhanced (pairs : List (String × BulkPassenger)) (ts : String)
  | bulkLegacy (raws : List String) (c : CustomerData) (tt ts : String)
  | sweep (parse : String → Option Int) (now : Int) (ts : String)

/-- What the interactive validation layer of the source guarantees about the
data an operation is invoked with: verified names are nonempty (the name
validators demand at least two characters per part), ticket types are drawn
from the configured nonempty names, and every timestamp is a nonblank
now_str rendering. -/
def wfOp : Op → Prop
  | .reserve _ c tt ts => c.full_name ≠ "" ∧ tt ≠ "" ∧ ts ≠ ""
  | .cancel _ _ => True
  | .move _ _ ts => ts ≠ ""
  | .rename _ newName ts => collapse_spaces (pyStrip newName) ≠ "" ∧ ts ≠ ""
  | .retype _ tt ts => tt ≠ "" ∧ ts ≠ ""
  | .contactUpd _ _ _ ts => ts ≠ ""
  | .unavail _ _ => True
  | .reset _ _ => True
  | .bulkEnhanced pairs ts =>
      ts ≠ "" ∧ ∀ pr ∈ pairs, pr.2.full_name ≠ "" ∧ pr.2.ticket_type ≠ ""
  | .bulkLegacy _ c tt ts => c.full_name ≠ "" ∧ tt ≠ "" ∧ ts ≠ ""
  | .sweep _ _ _ => True

instance (op : Op) : Decidable (wfOp op) := by
  cases op <;> (unfold wfOp; infer_instance)

/-- An error branch of the source prints a message and reprompts without
writing, so as a state transformer it keeps the state. -/
def commitOr (st : Sys) : Except RErr Sys → Sys
  | .ok st2 => st2
  | .error _ => st

/-- One engine operation as a state transformer. -/
def applyOp (st : Sys) : Op → Sys
  | .reserve raw c tt ts => commitOr st (reserve_seat st raw c tt ts)
  | .cancel raw ts => commitOr st (cancel_reservation st raw ts)
  | .move fromRaw toRaw ts => commitOr st (move_reservation st fromRaw toRaw ts)
  | .rename raw newName ts => commitOr st (rename_reservation st raw newName ts)
  | .retype raw tt ts => commitOr st (retype_reservation st raw tt ts)
  | .contactUpd raw contact address ts => commitOr st (update_contact st raw contact address ts)
  | .unavail raw ts => commitOr st (set_seat_unavailable st raw ts)
  | .reset raw ts => commitOr st (reset_seat_available st raw ts)
  | .bulkEnhanced pairs ts => commitOr st (bulk_reserve_enhanced st pairs ts)
  | .bulkLegacy raws c tt ts => commitOr st (bulk_reserve st raws c tt ts)
  | .sweep parse now ts => check_booking_timeout st parse now ts

/-- A sequence of engine operations applied from a starting state. -/
def applyOps (st : Sys) (ops : List Op) : Sys :=
  ops.foldl applyOp st

/-- All booking fields of a Taken record are present and nonblank. -/
def fullTaken (r : SeatRec) : Prop :=
  r.name ≠ "" ∧ r.ticketType ≠ "" ∧ r.basePrice ≠ "" ∧ r.finalPrice ≠ "" ∧ r.timestamp ≠ ""

/-- The per-seat invariant: the record is Taken exactly when the occupant
name, ticket type, both prices and the booking timestamp are all
nonblank. -/
def SeatInv (r : SeatRec) : Prop :=
  r.status = "Taken" ↔ fullTaken r

/-- The state invariant: every seat record satisfies the per-seat
invariant. -/
def Invariant (st : Sys) : Prop :=
  ∀ s, SeatInv (st.seats s)

theorem seatInv_of_taken_full {r : SeatRec} (hs : r.status = "Taken") (hf : fullTaken r) :
    SeatInv r :=
  ⟨fun _ => hf, fun _ => hs⟩

theorem seatInv_not_taken {r : SeatRec} (hs : r.status ≠ "Taken") (hn : r.name = "") :
    SeatInv r := by
  constructor
  · intro h; exact absurd h hs
  · rintro ⟨h1, -⟩; exact absurd hn h1

theorem seatInv_clearedRec (status ts : String) (h : status ≠ "Taken") :
    SeatInv (clearedRec status ts) := by
  constructor
  · intro hs; exact absurd hs h
  · rintro ⟨h1, -⟩; exact absurd rfl h1

theorem seatInv_initRec : SeatInv initRec := by
  constructor
  · intro hs; exact absurd hs (by decide)
  · rintro ⟨h1, -⟩; exact absurd rfl h1

theorem seatInv_setSeat {m : String → SeatRec} {k : String} {v : SeatRec}
    (hm : ∀ s, SeatInv (m s)) (hv : SeatInv v) : ∀ s, SeatInv (setSeat m k v s) := by
  intro s
  unfold setSeat
  by_cases h : s = k
  · rw [if_pos h]; exact hv
  · rw [if_neg h]; exact hm s

theorem seatInv_reserveLoop (avail : List String) (ws : List (String × SeatRec))
    (m : String → SeatRec) (hm : ∀ s, SeatInv (m s)) (hw : ∀ w ∈ ws, SeatInv w.2) :
    ∀ s, SeatInv (reserveLoop avail m ws s) := by
  induction ws generalizing m with
  | nil => exact hm
  | cons w rest ih =>
      simp only [reserveLoop, List.foldl_cons]
      have hm2 : ∀ s, SeatInv ((if avail.contains w.1 then setSeat m w.1 w.2 else m) s) := by
        split
        · exact seatInv_setSeat hm (hw w (List.mem_cons_self _ _))
        · exact hm
      exact ih _ hm2 (fun w2 hw2 => hw w2 (List.mem_cons_of_mem _ hw2))

theorem invariant_applyOp (st : Sys) (op : Op) (hst : Invariant st) (hwf : wfOp op) :
    Invariant (applyOp st op) := by
  cases op with
  | reserve raw c tt ts =>
      obtain ⟨hn, ht, hts⟩ := hwf
      simp only [applyOp, reserve_seat]
      split
      · split
        · exact hst
        · split
          · exact hst
          · simp only [reserveCommit]
            intro s
            refine seatInv_setSeat hst ?_ s
            exact seatInv_of_taken_full rfl
              ⟨hn, ht, formatPrice_ne_empty _, formatPrice_ne_empty _, hts⟩
      · exact hst
  | cancel raw ts =>
      simp only [applyOp, cancel_reservation]
      split
      · intro s
        refine seatInv_setSeat hst ?_ s
        exact seatInv_clearedRec "Available" ts (by decide)
      · exact hst
  | move fromRaw toRaw ts =>
      have hts : ts ≠ "" := hwf
      simp only [applyOp, move_reservation, moveCommit]
      split
      · next h1 =>
          split
          · intro s
            have hfull := (hst _).mp h1.2
            refine seatInv_setSeat ?_ ?_ s
            · refine seatInv_setSeat hst ?_
              exact seatInv_of_taken_full rfl
                ⟨hfull.1, hfull.2.1, hfull.2.2.1, hfull.2.2.2.1, hts⟩
            · exact seatInv_clearedRec "Available" ts (by decide)
          · exact hst
      · exact hst
  | rename raw newName ts =>
      obtain ⟨hn, hts⟩ := hwf
      simp only [applyOp, rename_reservation]
      split
      · next h1 =>
          intro s
          have hfull := (hst _).mp h1.2
          refine seatInv_setSeat hst ?_ s
          exact seatInv_of_taken_full h1.2
            ⟨hn, hfull.2.1, hfull.2.2.1, hfull.2.2.2.1, hts⟩
      · exact hst
  | retype raw tt ts =>
      obtain ⟨ht, hts⟩ := hwf
      simp only [applyOp, retype_reservation]
      split
      · next h1 =>
          intro s
          have hfull := (hst _).mp h1.2
          refine seatInv_setSeat hst ?_ s
          exact seatInv_of_taken_full h1.2
            ⟨hfull.1, ht, formatPrice_ne_empty _, formatPrice_ne_empty _, hts⟩
      · exact hst
  | contactUpd raw contact address ts =>
      have hts : ts ≠ "" := hwf
      simp only [applyOp, update_contact]
      split
      · next h1 =>
          intro s
          have hfull := (hst _).mp h1.2
          refine seatInv_setSeat hst ?_ s
          exact seatInv_of_taken_full h1.2
            ⟨hfull.1, hfull.2.1, hfull.2.2.1, hfull.2.2.2.1, hts⟩
      · exact hst
  | unavail raw ts =>
      simp only [applyOp, set_seat_unavailable]
      split
      · intro s
        refine seatInv_setSeat hst ?_ s
        exact seatInv_clearedRec "Unavailable" ts (by decide)
      · exact hst
  | reset raw ts =>
      simp only [applyOp, reset_seat_available]
      split
      · intro s
        refine seatInv_setSeat hst ?_ s
        exact seatInv_clearedRec "Available" ts (by decide)
      · exact hst
  | bulkEnhanced pairs ts =>
      obtain ⟨hts, hall⟩ := hwf
      simp only [applyOp, bulk_reserve_enhanced]
      split
      · exact hst
      · intro s
        refine seatInv_reserveLoop _ _ _ hst ?_ s
        intro w hwmem
        obtain ⟨pr, hpr, rfl⟩ := List.mem_map.mp hwmem
        exact seatInv_of_taken_full rfl
          ⟨(hall pr hpr).1, (hall pr hpr).2, formatPrice_ne_empty _, formatPrice_ne_empty _, hts⟩
  | bulkLegacy raws c tt ts =>
      obtain ⟨hn, ht, hts⟩ := hwf
      simp only [applyOp, bulk_reserve]
      split
      · exact hst
      · intro s
        refine seatInv_reserveLoop _ _ _ hst ?_ s
        intro w hwmem
        obtain ⟨sid, hsid, rfl⟩ := List.mem_map.mp hwmem
        exact seatInv_of_taken_full rfl
          ⟨hn, ht, formatPrice_ne_empty _, formatPrice_ne_empty _, hts⟩
  | sweep parse now ts =>
      simp only [applyOp, check_booking_timeout]
      intro s
      dsimp only
      split
      · exact seatInv_clearedRec "Available" "" (by decide)
      · exact hst s

theorem invariant_applyOps (st : Sys) (ops : List Op) (hst : Invariant st)
    (hwf : ∀ op ∈ ops, wfOp op) : Invariant (applyOps st ops) := by
  induction ops generalizing st with
  | nil => exact hst
  | cons op rest ih =>
      simp only [applyOps, List.foldl_cons]
      exact ih (applyOp st op)
        (invariant_applyOp st op hst (hwf op (List.mem_cons_self _ _)))
        (fun o ho => hwf o (List.mem_cons_of_mem _ ho))

theorem invariant_initSys (svc : String) : Invariant (initSys svc) :=
  fun _ => seatInv_initRec

/-- C1: for every seat record produced by any sequence of engine operations
(Reserve, Cancel, Transfer or move, Retype, SetUnavailable,
ResetToAvailable, BulkReserve in both variants, auto-expiry, plus the name
and contact updates) invoked with inputs the interactive validators admit,
the seat status is Taken exactly when the occupant name, ticket type, base
price, final price and booking timestamp are all present and nonblank; no
operation ever commits a partial Taken record. -/
theorem taken_iff_complete_record (svc : String) (ops : List Op)
    (hwf : ∀ op ∈ ops, wfOp op) : Invariant (applyOps (initSys svc) ops) :=
  invariant_applyOps (initSys svc) ops (invariant_initSys svc) hwf

/-- A verified customer used to exercise the engine on concrete inputs. -/
def demoCustomer : CustomerData :=
  { full_name := "Juan Cruz", id_type := "Passport", id_number := "AB123456"
  , contact := "09171234567", address := "12 Rizal St., Poblacion, Manila, Cavite 1000"
  , verified_at := "2024-01-01 10:00:00" }

/-- A concrete operation sequence hitting reserve, cancel, a second reserve,
a move and an unavailability mark. -/
def demoOps : List Op :=
  [ .reserve "1A" demoCustomer "Regular" "2024-01-01 10:00:00"
  , .cancel "1A" "2024-01-02 09:00:00"
  , .reserve "2B" demoCustomer "Senior" "2024-01-02 09:30:00"
  , .move "2B" "3C" "2024-01-02 09:45:00"
  , .unavail "1F" "2024-01-02 10:00:00" ]

theorem taken_iff_complete_record_witness :
    (∀ op ∈ demoOps, wfOp op) ∧ Invariant (applyOps (initSys "C") demoOps) :=
  ⟨by decide, taken_iff_complete_record "C" demoOps (by decide)⟩

theorem reserveLoop_cons (avail : List String) (w : String × SeatRec)
    (rest : List (String × SeatRec)) (m : String → SeatRec) :
    reserveLoop avail m (w :: rest) =
      reserveLoop avail (if avail.contains w.1 then setSeat m w.1 w.2 else m) rest := rfl

theorem reserveLoop_frame (avail : List String) (ws : List (String × SeatRec))
    (m : String → SeatRec) (s : String) (h : ∀ w ∈ ws, w.1 ≠ s) :
    reserveLoop avail m ws s = m s := by
  induction ws generalizing m with
  | nil => rfl
  | cons w rest ih =>
      rw [reserveLoop_cons, ih _ (fun w2 hw2 => h w2 (List.mem_cons_of_mem _ hw2))]
      split
      · unfold setSeat
        rw [if_neg (Ne.symm (h w (List.mem_cons_self _ _)))]
      · rfl

theorem reserveLoop_keeps_taken (avail : List String) (ws : List (String × SeatRec))
    (m : String → SeatRec) (s : String) (hw : ∀ w ∈ ws, w.2.status = "Taken")
    (hm : (m s).status = "Taken") : (reserveLoop avail m ws s).status = "Taken" := by
  induction ws generalizing m with
  | nil => exact hm
  | cons w rest ih =>
      rw [reserveLoop_cons]
      refine ih _ (fun w2 h2 => hw w2 (List.mem_cons_of_mem _ h2)) ?_
      split
      · unfold setSeat
        split
        · exact hw w (List.mem_cons_self _ _)
        · exact hm
      · exact hm

theorem reserveLoop_written (avail : List String) (ws : List (String × SeatRec))
    (m : String → SeatRec) (s : String) (hw : ∀ w ∈ ws, w.2.status = "Taken")
    (hs : ∃ w ∈ ws, w.1 = s ∧ avail.contains w.1 = true) :
    (reserveLoop avail m ws s).status = "Taken" := by
  induction ws generalizing m with
  | nil =>
      obtain ⟨w, hw0, -⟩ := hs
      exact absurd hw0 (List.not_mem_nil _)
  | cons w rest ih =>
      rw [reserveLoop_cons]
      obtain ⟨w0, hw0mem, hw0s, hw0av⟩ := hs
      rcases List.mem_cons.mp hw0mem with heq | hrest
      · subst heq
        refine reserveLoop_keeps_taken _ _ _ _ (fun w2 h2 => hw w2 (List.mem_cons_of_mem _ h2)) ?_
        rw [if_pos hw0av]
        unfold setSeat
        rw [if_pos hw0s.symm]
        exact hw w0 (List.mem_cons_self _ _)
      · exact ih _ (fun w2 h2 => hw w2 (List.mem_cons_of_mem _ h2)) ⟨w0, hrest, hw0s, hw0av⟩

/-- C2: both bulk reservation paths are all-or-nothing over one load of the
seat mapping: if any requested seat id is not in the availability list,
the whole batch fails with no change to the state; if every requested seat
is available, the single committed state has every requested seat Taken
and every other seat record unchanged. -/
theorem bulk_reserve_all_or_nothing (st : Sys) (pairs : List (String × BulkPassenger))
    (raws : List String) (c : CustomerData) (tt ts : String) :
    ((¬ ∀ pr ∈ pairs, normalize_seat_id_input pr.1 ∈ availableSeats st) →
        bulk_reserve_enhanced st pairs ts = .error .invalidSeat ∧
        applyOp st (.bulkEnhanced pairs ts) = st) ∧
    ((∀ pr ∈ pairs, normalize_seat_id_input pr.1 ∈ availableSeats st) →
        ∃ st2, bulk_reserve_enhanced st pairs ts = .ok st2 ∧
          (∀ pr ∈ pairs, (st2.seats (normalize_seat_id_input pr.1)).status = "Taken") ∧
          (∀ s, (∀ pr ∈ pairs, normalize_seat_id_input pr.1 ≠ s) → st2.seats s = st.seats s)) ∧
    ((¬ ∀ raw ∈ raws, normalize_seat_id_input raw ∈ availableSeats st) →
        bulk_reserve st raws c tt ts = .error .invalidSeat ∧
        applyOp st (.bulkLegacy raws c tt ts) = st) ∧
    ((∀ raw ∈ raws, normalize_seat_id_input raw ∈ availableSeats st) →
        ∃ st2, bulk_reserve st raws c tt ts = .ok st2 ∧
          (∀ raw ∈ raws, (st2.seats (normalize_seat_id_input raw)).status = "Taken") ∧
          (∀ s, (∀ raw ∈ raws, normalize_seat_id_input raw ≠ s) → st2.seats s = st.seats s)) := by
  refine ⟨?_, ?_, ?_, ?_⟩
  · intro hbad
    have hne : (pairs.map (fun pr => normalize_seat_id_input pr.1)).filter
        (fun s => !(availableSeats st).contains s) ≠ [] := by
      intro hnil
      refine hbad ?_
      intro pr hpr
      have h2 := (List.filter_eq_nil_iff.mp hnil) (normalize_seat_id_input pr.1)
        (List.mem_map_of_mem _ hpr)
      simp only [Bool.not_eq_true', Bool.not_eq_false] at h2
      exact List.elem_iff.mp h2
    have herr : bulk_reserve_enhanced st pairs ts = .error .invalidSeat := by
      simp only [bulk_reserve_enhanced]
      rw [if_pos hne]
    exact ⟨herr, by simp only [applyOp, herr, commitOr]⟩
  · intro hall
    have hnil : (pairs.map (fun pr => normalize_seat_id_input pr.1)).filter
        (fun s => !(availableSeats st).contains s) = [] := by
      refine List.filter_eq_nil_iff.mpr ?_
      intro a ha
      obtain ⟨pr, hpr, rfl⟩ := List.mem_map.mp ha
      simp only [Bool.not_eq_true', Bool.not_eq_false]
      exact List.elem_iff.mpr (hall pr hpr)
    simp only [bulk_reserve_enhanced, if_neg (not_not_intro hnil)]
    refine ⟨_, rfl, ?_, ?_⟩
    · intro pr hpr
      refine reserveLoop_written _ _ _ _ ?_ ?_
      · intro w hwm
        obtain ⟨pr2, hpr2, rfl⟩ := List.mem_map.mp hwm
        rfl
      · refine ⟨(normalize_seat_id_input pr.1, bulkRec st.svc pr.2 ts), ?_, rfl, ?_⟩
        · exact List.mem_map_of_mem _ hpr
        · exact List.elem_iff.mpr (hall pr hpr)
    · intro s hs
      refine reserveLoop_frame _ _ _ _ ?_
      intro w hwm
      obtain ⟨pr2, hpr2, rfl⟩ := List.mem_map.mp hwm
      exact hs pr2 hpr2
  · intro hbad
    have hne : (raws.map normalize_seat_id_input).filter
        (fun s => !(availableSeats st).contains s) ≠ [] := by
      intro hnil
      refine hbad ?_
      intro raw hraw
      have h2 := (List.filter_eq_nil_iff.mp hnil) (normalize_seat_id_input raw)
        (List.mem_map_of_mem _ hraw)
      simp only [Bool.not_eq_true', Bool.not_eq_false] at h2
      exact List.elem_iff.mp h2
    have herr : bulk_reserve st raws c tt ts = .error .invalidSeat := by
      simp only [bulk_reserve]
      rw [if_pos hne]
    exact ⟨herr, by simp only [applyOp, herr, commitOr]⟩
  · intro hall
    have hnil : (raws.map normalize_seat_id_input).filter
        (fun s => !(availableSeats st).contains s) = [] := by
      refine List.filter_eq_nil_iff.mpr ?_
      intro a ha
      obtain ⟨raw, hraw, rfl⟩ := List.mem_map.mp ha
      simp only [Bool.not_eq_true', Bool.not_eq_false]
      exact List.elem_iff.mpr (hall raw hraw)
    simp only [bulk_reserve, if_neg (not_not_intro hnil)]
    refine ⟨_, rfl, ?_, ?_⟩
    · intro raw hraw
      refine reserveLoop_written _ _ _ _ ?_ ?_
      · intro w hwm
        obtain ⟨sid2, hsid2, rfl⟩ := List.mem_map.mp hwm
        rfl
      · refine ⟨(normalize_seat_id_input raw,
          takenRec c tt (compute_price st.svc tt).1 (compute_price st.svc tt).2 ts), ?_, rfl, ?_⟩
        · exact List.mem_map_of_mem _ (List.mem_map_of_mem _ hraw)
        · exact List.elem_iff.mpr (hall raw hraw)
    · intro s hs
      refine reserveLoop_frame _ _ _ _ ?_
      intro w hwm
      obtain ⟨sid2, hsid2, rfl⟩ := List.mem_map.mp hwm
      obtain ⟨raw2, hraw2, rfl⟩ := List.mem_map.mp hsid2
      exact hs raw2 hraw2

/-- A verified passenger used for concrete bulk reservations. -/
def demoPassenger : BulkPassenger :=
  { full_name := "Maria Santos", id_type := "Passport", id_number := "CD654321"
  , contact := "09181234567", address := "7 Mabini St., Poblacion, Cebu, Cebu 6000"
  , ticket_type := "Student", verified_at := "2024-01-03 08:00:00" }

/-- A cinema state in which seat 1B is already Taken. -/
def demoBulkSt : Sys :=
  commitOr (initSys "C") (reserve_seat (initSys "C") "1B" demoCustomer "Regular" "2024-01-03 07:00:00")

/-- A bulk request over 1A and 1B, of which 1B is already Taken. -/
def demoPairs : List (String × BulkPassenger) :=
  [("1A", demoPassenger), ("1B", demoPassenger)]

/-- A bulk request over two seats that are both Available. -/
def demoRaws : List String := ["2A", "2B"]

theorem bulk_reserve_all_or_nothing_witness :
    (¬ ∀ pr ∈ demoPairs, normalize_seat_id_input pr.1 ∈ availableSeats demoBulkSt) ∧
    bulk_reserve_enhanced demoBulkSt demoPairs "2024-01-03 08:30:00" = .error .invalidSeat ∧
    (∀ raw ∈ demoRaws, normalize_seat_id_input raw ∈ availableSeats demoBulkSt) ∧
    (∃ st2, bulk_reserve demoBulkSt demoRaws demoCustomer "Regular" "2024-01-03 08:30:00" = .ok st2 ∧
      (∀ raw ∈ demoRaws, (st2.seats (normalize_seat_id_input raw)).status = "Taken") ∧
      (∀ s, (∀ raw ∈ demoRaws, normalize_seat_id_input raw ≠ s) → st2.seats s = demoBulkSt.seats s)) :=
  ⟨by decide,
   ((bulk_reserve_all_or_nothing demoBulkSt demoPairs demoRaws demoCustomer "Regular"
      "2024-01-03 08:30:00").1 (by decide)).1,
   by decide,
   (bulk_reserve_all_or_nothing demoBulkSt demoPairs demoRaws demoCustomer "Regular"
      "2024-01-03 08:30:00").2.2.2 (by decide)⟩

theorem reserve_seat_on_taken (st : Sys) (raw : String) (c : CustomerData) (tt ts : String)
    (hmem : normalize_seat_id_input raw ∈ layoutFor st.svc)
    (htaken : (st.seats (normalize_seat_id_input raw)).status = "Taken") :
    reserve_seat st raw c tt ts =
      .error (.alreadyTaken (st.seats (normalize_seat_id_input raw)).name) := by
  simp only [reserve_seat, if_pos hmem, if_pos htaken]

/-- C5: two sequential reservations of the same seat: from a state where the
seat is Available, the first reserve commits the first caller's full record,
and the second reserve fails with the already-taken state conflict naming
the first occupant, changing nothing: after both calls the seat holds
exactly the record written by the first call. -/
theorem second_reserve_conflict (st : Sys) (raw : String) (c1 c2 : CustomerData)
    (tt1 tt2 ts1 ts2 : String)
    (hmem : normalize_seat_id_input raw ∈ layoutFor st.svc)
    (havail : (st.seats (normalize_seat_id_input raw)).status = "Available") :
    ∃ st1, reserve_seat st raw c1 tt1 ts1 = .ok st1 ∧
      st1.seats (normalize_seat_id_input raw) =
        takenRec c1 tt1 (compute_price st.svc tt1).1 (compute_price st.svc tt1).2 ts1 ∧
      (∀ s, s ≠ normalize_seat_id_input raw → st1.seats s = st.seats s) ∧
      reserve_seat st1 raw c2 tt2 ts2 = .error (.alreadyTaken c1.full_name) ∧
      applyOp st1 (.reserve raw c2 tt2 ts2) = st1 := by
  have hnt : ¬ ((st.seats (normalize_seat_id_input raw)).status = "Taken") := by
    rw [havail]; decide
  have hnu : ¬ ((st.seats (normalize_seat_id_input raw)).status = "Unavailable") := by
    rw [havail]; decide
  have hstep : reserve_seat st raw c1 tt1 ts1 =
      .ok (reserveCommit st (normalize_seat_id_input raw) c1 tt1 ts1) := by
    simp only [reserve_seat, if_pos hmem, if_neg hnt, if_neg hnu]
  have htk : ((reserveCommit st (normalize_seat_id_input raw) c1 tt1 ts1).seats
      (normalize_seat_id_input raw)).status = "Taken" := by
    simp [reserveCommit, setSeat, takenRec]
  have h2 := reserve_seat_on_taken (reserveCommit st (normalize_seat_id_input raw) c1 tt1 ts1)
    raw c2 tt2 ts2 hmem htk
  have hname : ((reserveCommit st (normalize_seat_id_input raw) c1 tt1 ts1).seats
      (normalize_seat_id_input raw)).name = c1.full_name := by
    simp [reserveCommit, setSeat, takenRec]
  refine ⟨_, hstep, ?_, ?_, ?_, ?_⟩
  · simp [reserveCommit, setSeat]
  · intro s hs
    simp [reserveCommit, setSeat, if_neg hs]
  · rw [h2, hname]
  · simp only [applyOp, h2, commitOr]

/-- C7: the expiry sweep clears every Taken seat whose parsed booking time
lies more than 24 hours (86400 seconds) before the current time back to
Available with all occupant fields blank, records an AUTO_CANCELLATION
audit entry for it, and leaves Taken seats within the 24-hour window
unchanged; the AUTO_CANCELLATION action kind is distinct from the
CANCELLATION kind a manual cancel appends. -/
theorem auto_expiry_sweep (st : Sys) (parse : String → Option Int) (now : Int) (ts : String)
    (seat : String) (t : Int)
    (hmem : seat ∈ layoutFor st.svc)
    (htaken : (st.seats seat).status = "Taken")
    (hts : (st.seats seat).timestamp ≠ "")
    (hparse : parse (st.seats seat).timestamp = some t) :
    ((86400 : Int) < now - t →
      (check_booking_timeout st parse now ts).seats seat = clearedRec "Available" "" ∧
      mkAudit ts st.svc seat "AUTO_CANCELLATION" ((st.seats seat).name ++ " - Booking expired")
        ∈ (check_booking_timeout st parse now ts).history) ∧
    (now - t ≤ 86400 →
      (check_booking_timeout st parse now ts).seats seat = st.seats seat) ∧
    ("AUTO_CANCELLATION" : String) ≠ "CANCELLATION" ∧
    (∀ st2, cancel_reservation st seat ts = .ok st2 →
      ∃ details, st2.history =
        st.history ++ [mkAudit ts st.svc (normalize_seat_id_input seat) "CANCELLATION" details]) := by
  refine ⟨?_, ?_, by decide, ?_⟩
  · intro hlt
    have hexp : expired_booking parse now (st.seats seat) = true := by
      simp only [expired_booking, htaken, hparse]
      simp [hts, hlt]
    have hcond : ((layoutFor st.svc).contains seat
        && expired_booking parse now (st.seats seat)) = true := by
      rw [hexp]
      simp only [Bool.and_true]
      exact List.elem_iff.mpr hmem
    constructor
    · simp only [check_booking_timeout]
      rw [if_pos hcond]
    · simp only [check_booking_timeout]
      refine List.mem_append_right _ ?_
      refine List.mem_map.mpr ⟨seat, ?_, rfl⟩
      exact List.mem_filter.mpr ⟨hmem, hexp⟩
  · intro hle
    have hnot : expired_booking parse now (st.seats seat) = false := by
      simp only [expired_booking, hparse]
      simp [not_lt.mpr hle]
    simp [check_booking_timeout, hnot]
  · intro st2 hok
    simp only [cancel_reservation] at hok
    split at hok
    · injection hok with h2
      subst h2
      exact ⟨(st.seats (normalize_seat_id_input seat)).name ++ " - ID: "
        ++ (st.seats (normalize_seat_id_input seat)).idType, rfl⟩
    · exact Except.noConfusion hok

theorem auto_expiry_sweep_witness :
    (check_booking_timeout demoBulkSt (fun _ => some 0) 90000 "2024-01-04 08:00:00").seats "1B"
        = clearedRec "Available" "" ∧
    mkAudit "2024-01-04 08:00:00" demoBulkSt.svc "1B" "AUTO_CANCELLATION"
        ((demoBulkSt.seats "1B").name ++ " - Booking expired")
      ∈ (check_booking_timeout demoBulkSt (fun _ => some 0) 90000 "2024-01-04 08:00:00").history :=
  (auto_expiry_sweep demoBulkSt (fun _ => some 0) 90000 "2024-01-04 08:00:00" "1B" 0
    (by decide) (by decide) (by decide) rfl).1 (by decide)

/-- C3 counterexample: the ticket type Bogus is not configured for the
Cinema service, yet compute_price does not fail: it returns the Regular
price pair (150, 150).  The pricing function is total and has no error
outcome at all, so an unconfigured ticket type never raises an
UnknownTicketType error. -/
theorem compute_price_unknown_no_failure_cex :
    (pricingFor "C").lookup "Bogus" = none ∧
    compute_price "C" "Bogus" = (150, 150) := by
  constructor
  · rfl
  · decide

/-- C3 (amended): for every service, when the requested ticket type is not
configured, compute_price falls back to the Regular price of the service
and returns it for both the base and the final component, instead of
failing with an UnknownTicketType error. -/
theorem compute_price_unknown_fallback (svc tt : String)
    (h : (pricingFor svc).lookup tt = none) :
    compute_price svc tt = (regularPrice svc, regularPrice svc) := by
  simp only [compute_price, h]

theorem compute_price_unknown_fallback_witness :
    compute_price "C" "Bogus" = (regularPrice "C", regularPrice "C") :=
  compute_price_unknown_fallback "C" "Bogus" (by decide)

theorem senior_fraction_pos : 0 < (1/5 : ℚ) := by norm_num

theorem senior_fraction_lt_one : (1/5 : ℚ) < 1 := by norm_num

theorem vip_flat_ge_one : 1 ≤ (PVal.ival 300).toRat := by norm_num [PVal.toRat]

/-- C4: for every service and every configured ticket type the pricing
resolution follows the rule: a configured float fraction strictly between 0
and 1 gives base equal to the Regular price of the service and final equal
to base times (1 - fraction); a configured value of at least 1 gives base
equal to the Regular price and that flat value as the final price.  In
particular the Senior quote on the Bus service (Regular 100, fraction 0.20)
is (100, 80) and the VIP quote on the Cinema service is (150, 300) with
base equal to the Cinema Regular price 150 and base distinct from final. -/
theorem pricing_resolution :
    (∀ svc tt q, (pricingFor svc).lookup tt = some (.fval q) → 0 < q → q < 1 →
        compute_price svc tt = (regularPrice svc, regularPrice svc * (1 - (PVal.fval q).toRat))) ∧
    (∀ svc tt v, (pricingFor svc).lookup tt = some v → 1 ≤ v.toRat →
        compute_price svc tt = (regularPrice svc, v.toRat)) ∧
    compute_price "B" "Senior" = (100, 80) ∧
    compute_price "C" "VIP" = (150, 300) ∧
    regularPrice "C" = 150 ∧
    ((150 : ℚ) ≠ 300) := by
  refine ⟨?_, ?_, ?_, ?_, ?_, ?_⟩
  · intro svc tt q hl h0 h1
    simp only [compute_price, hl]
    rw [if_pos ⟨rfl, h0, h1⟩]
  · intro svc tt v hl hge
    simp only [compute_price, hl]
    rw [if_neg (fun hc => absurd hge (not_le.mpr hc.2.2)), if_pos hge]
  · have hl : (pricingFor "B").lookup "Senior" = some (.fval (1/5)) := rfl
    have hb : regularPrice "B" = ((100 : Int) : ℚ) := rfl
    simp only [compute_price, hl]
    rw [if_pos ⟨rfl, senior_fraction_pos, senior_fraction_lt_one⟩, hb]
    norm_num [PVal.toRat]
  · have hl : (pricingFor "C").lookup "VIP" = some (.ival 300) := rfl
    have hc : regularPrice "C" = ((150 : Int) : ℚ) := rfl
    simp only [compute_price, hl]
    rw [if_neg (fun hc2 => absurd hc2.1 (by decide)), if_pos vip_flat_ge_one, hc]
    norm_num [PVal.toRat]
  · rw [show regularPrice "C" = ((150 : Int) : ℚ) from rfl]
    norm_num
  · norm_num

theorem pricing_resolution_witness :
    compute_price "B" "Senior" =
      (regularPrice "B", regularPrice "B" * (1 - (PVal.fval (1/5)).toRat)) ∧
    compute_price "C" "VIP" = (regularPrice "C", (PVal.ival 300).toRat) :=
  ⟨pricing_resolution.1 "B" "Senior" (1/5) rfl senior_fraction_pos senior_fraction_lt_one,
   pricing_resolution.2.1 "C" "VIP" (.ival 300) rfl vip_flat_ge_one⟩

/-- The fixed enumerated set of government ID types offered by
validate_government_id. -/
inductive IDKind where
  | driversLicense
  | passport
  | nationalID
  | sss
  | gsis
  | umid
  | postal
  | prc
  | voters
  deriving DecidableEq, Repr

/-- The apostrophe character, built from its code point. -/
def apos : String := String.mk [Char.ofNat 39]

/-- The display name of each ID type as the source spells it. -/
def idName : IDKind → String
  | .driversLicense => "Driver" ++ apos ++ "s License"
  | .passport => "Passport"
  | .nationalID => "National ID (PhilSys)"
  | .sss => "SSS ID"
  | .gsis => "GSIS ID"
  | .umid => "UMID"
  | .postal => "Postal ID"
  | .prc => "PRC ID"
  | .voters => "Voter" ++ apos ++ "s ID"

/-- A run of only digits whose length lies in the closed interval, the
shape of a d-run in the regexes. -/
def digitRun (l : List Char) (lo hi : Nat) : Bool :=
  l.all Char.isDigit && decide (lo ≤ l.length) && decide (l.length ≤ hi)

/-- The drivers license regex: one uppercase letter, two digits, then
dash-separated groups of 2, 2 and 6 digits. -/
def matchesDL : List Char → Bool
  | [a, b, c, s1, d, e, s2, f, g, s3, h, i, j, k, m, n] =>
      a.isUpper && b.isDigit && c.isDigit && (s1 == '-') && d.isDigit && e.isDigit &&
      (s2 == '-') && f.isDigit && g.isDigit && (s3 == '-') &&
      h.isDigit && i.isDigit && j.isDigit && k.isDigit && m.isDigit && n.isDigit
  | _ => false

/-- The passport regex: one or two uppercase letters then 6 to 8 digits. -/
def matchesPassport : List Char → Bool
  | c :: rest =>
      c.isUpper &&
        (digitRun rest 6 8 ||
          (match rest with
           | d :: rest2 => d.isUpper && digitRun rest2 6 8
           | [] => false))
  | [] => false

/-- The postal ID regex: two uppercase letters then exactly 7 digits. -/
def matchesPostal : List Char → Bool
  | a :: b :: rest => a.isUpper && b.isUpper && digitRun rest 7 7
  | _ => false

/-- The full-match regex shape of each of the nine ID types, compiled by
hand from the format table of validate_government_id. -/
def id_format_ok (k : IDKind) (num : String) : Bool :=
  match k with
  | .driversLicense => matchesDL num.toList
  | .passport => matchesPassport num.toList
  | .nationalID => digitRun num.toList 12 12
  | .sss => digitRun num.toList 10 10
  | .gsis => digitRun num.toList 10 10
  | .umid => digitRun num.toList 12 12
  | .postal => matchesPostal num.toList
  | .prc => digitRun num.toList 6 8
  | .voters => digitRun num.toList 12 12

/-- validate_id_format: the regex check, then the type-specific secondary
checks (drivers license: first character a letter and characters 2 to 3
digits; passport: starting with a letter). -/
def validate_id_format (k : IDKind) (id_number : String) : Bool × String :=
  if !(id_format_ok k id_number) then (false, "Invalid format")
  else
    match k with
    | .driversLicense =>
        (match id_number.toList with
         | a :: b :: c :: _ =>
             if !a.isAlpha then (false, "First character must be a letter")
             else if !(b.isDigit && c.isDigit) then (false, "Characters 2-3 must be digits")
             else (true, "Valid format")
         | _ => (false, "First character must be a letter"))
    | .passport =>
        (match id_number.toList with
         | a :: _ =>
             if !a.isAlpha then (false, "Passport must start with a letter")
             else (true, "Valid format")
         | [] => (false, "Passport must start with a letter"))
    | _ => (true, "Valid format")

/-- validate_drivers_license: the dash-split LTO check. -/
def validate_drivers_license (license_number : String) : Bool :=
  match license_number.splitOn "-" with
  | [p0, p1, p2, p3] =>
      (p0.length == 3) &&
      (match p0.toList with
       | a :: rest => a.isAlpha && rest.all Char.isDigit
       | [] => false) &&
      (p1.length == 2) && p1.toList.all Char.isDigit &&
      (p2.length == 2) && p2.toList.all Char.isDigit &&
      (p3.length == 6) && p3.toList.all Char.isDigit
  | _ => false

/-- The acceptance condition of the ID-number entry loop of
validate_government_id: the format check plus, for a drivers license, the
extra split-based validation. -/
def government_id_ok (k : IDKind) (id_number : String) : Bool :=
  (validate_id_format k id_number).1 &&
    (match k with
     | .driversLicense => validate_drivers_license id_number
     | _ => true)

/-- The name-part validator of get_full_name_separate: nonempty, at least
two characters, letters, whitespace and hyphens only. -/
def name_field_ok (s : String) : Bool :=
  (s != "") && decide (2 ≤ s.length) &&
    s.toList.all (fun c => c.isAlpha || c.isWhitespace || (c == '-'))

/-- The middle initial: blank, or exactly one letter. -/
def middle_initial_ok (s : String) : Bool :=
  (s == "") || ((s.length == 1) && s.toList.all Char.isAlpha)

/-- Python str.title over the character list, for the ASCII names the
validators admit. -/
def pyTitleGo : List Char → Bool → List Char
  | [], _ => []
  | c :: rest, prevAlpha =>
      (if c.isAlpha then (if prevAlpha then c.toLower else c.toUpper) else c)
        :: pyTitleGo rest c.isAlpha

def pyTitle (s : String) : String :=
  String.mk (pyTitleGo s.toList false)

/-- The composed display name of get_full_name_separate: title-cased first
name and surname with the optional uppercased middle initial. -/
def compose_full_name (first mi sur : String) : String :=
  if mi != "" then pyTitle first ++ " " ++ pyUpper mi ++ ". " ++ pyTitle sur
  else pyTitle first ++ " " ++ pyTitle sur

/-- validate_phone_number: strip the nondigits and require 10 or 11
remaining digits; the second component is the cleaned number on success and
the message on failure. -/
def validate_phone_number (phone : String) : Bool × String :=
  if phone = "" then (false, "Phone number cannot be empty")
  else
    let clean := String.mk (phone.toList.filter Char.isDigit)
    if clean.length < 10 then (false, "Phone number too short (minimum 10 digits)")
    else if 11 < clean.length then (false, "Phone number too long (maximum 11 digits)")
    else (true, clean)

/-- int over an all-digit string, as the int conversion applied by
validate_zip_code after its digit check. -/
def strToNat (s : String) : Nat :=
  s.toList.foldl (fun acc c => acc * 10 + (c.toNat - 48)) 0

/-- validate_zip_code: nonempty, digits only, exactly 4 of them, and within
the Philippine range 0800 to 9820. -/
def validate_zip_code (zip_code : String) : Bool × String :=
  if zip_code = "" then (false, "ZIP code is required")
  else if !(zip_code.toList.all Char.isDigit) then (false, "ZIP code must contain only digits")
  else if zip_code.length != 4 then (false, "ZIP code must be 4 digits")
  else
    let zip_num := strToNat zip_code
    if zip_num < 800 ∨ 9820 < zip_num then (false, "Invalid Philippine ZIP code")
    else (true, "Valid ZIP code")

/-- The street validator of get_verified_address: nonempty, at least five
characters, letters, digits, whitespace and the punctuation of the regex
class only. -/
def street_ok (s : String) : Bool :=
  (s != "") && decide (5 ≤ s.length) &&
    s.toList.all (fun c => c.isAlpha || c.isDigit || c.isWhitespace ||
      (c == '-') || (c == '#') || (c == '.') || (c == ','))

/-- The barangay, city and province validators: nonempty with at least two
characters. -/
def locality_ok (s : String) : Bool :=
  (s != "") && decide (2 ≤ s.length)

/-- get_verified_address, one validated pass over already-stripped fields:
composes the display address only when every part passes. -/
def get_verified_address (street barangay city province zip_code : String) : Option String :=
  if street_ok street && locality_ok barangay && locality_ok city && locality_ok province
      && (validate_zip_code zip_code).1 then
    some (street ++ ", " ++ barangay ++ ", " ++ pyTitle city ++ ", " ++ pyTitle province
      ++ " " ++ zip_code)
  else none

/-- get_verified_personal_details, one validated pass: the interactive
re-prompt loops of the source admit exactly the inputs the validators
accept, so the pipeline returns a complete verified identity when every
field passes and nothing otherwise; the ID number is stripped and
uppercased as in the source, the contact stored is the cleaned digit
string. -/
def get_verified_personal_details (first mi sur : String) (k : IDKind)
    (id_number phone street barangay city province zip_code ts : String) :
    Option CustomerData :=
  if name_field_ok first && middle_initial_ok mi && name_field_ok sur then
    let idn := pyUpper (pyStrip id_number)
    if (idn != "") && government_id_ok k idn then
      let ph := validate_phone_number phone
      if ph.1 then
        match get_verified_address street barangay city province zip_code with
        | some address =>
            some { full_name := compose_full_name first mi sur, id_type := idName k
                 , id_number := idn, contact := ph.2, address := address, verified_at := ts }
        | none => none
      else none
    else none
  else none

theorem digit_not_name_char (c : Char) (h : c.isDigit = true) :
    (c.isAlpha || c.isWhitespace || (c == '-')) = false := by
  have hd1 : (48 : Nat) ≤ c.val.toNat := by
    simp only [Char.isDigit, Bool.and_eq_true, decide_eq_true_eq] at h
    exact h.1
  have hd2 : c.val.toNat ≤ 57 := by
    simp only [Char.isDigit, Bool.and_eq_true, decide_eq_true_eq] at h
    exact h.2
  simp only [Bool.or_eq_false_iff]
  refine ⟨⟨?_, ?_⟩, ?_⟩
  · cases hA : c.isAlpha with
    | false => rfl
    | true =>
        exfalso
        simp only [Char.isAlpha, Char.isUpper, Char.isLower, Bool.or_eq_true,
          Bool.and_eq_true, decide_eq_true_eq] at hA
        rcases hA with ⟨h1, h2⟩ | ⟨h1, h2⟩
        · have g1 : (65 : Nat) ≤ c.val.toNat := h1
          have g2 : c.val.toNat ≤ 90 := h2
          omega
        · have g1 : (97 : Nat) ≤ c.val.toNat := h1
          have g2 : c.val.toNat ≤ 122 := h2
          omega
  · cases hW : c.isWhitespace with
    | false => rfl
    | true =>
        exfalso
        simp only [Char.isWhitespace, Bool.or_eq_true, decide_eq_true_eq, or_assoc] at hW
        rcases hW with h1 | h1 | h1 | h1 <;> subst h1 <;> exact absurd hd1 (by decide)
  · cases hH : (c == '-') with
    | false => rfl
    | true =>
        exfalso
        have h1 : c = '-' := eq_of_beq hH
        subst h1
        exact absurd hd1 (by decide)

/-- C8: the identity validators reject the invalid shapes the specification
names, and the verification pipeline is all-or-nothing: a name containing a
digit fails the name validator; a postal code whose length is not 4 (such
as 3 digits) fails, as does one whose numeric value lies outside 800 to
9820; an ID number not matching the regex shape of its declared type fails
validate_id_format; and get_verified_personal_details returns a complete
identity only when the name parts, the government ID, the contact number
and every address field have each individually passed their validators. -/
theorem identity_validators_reject :
    (∀ s : String, (∃ c ∈ s.toList, c.isDigit = true) → name_field_ok s = false) ∧
    (∀ z : String, z.length = 3 → (validate_zip_code z).1 = false) ∧
    (∀ z : String, (strToNat z < 800 ∨ 9820 < strToNat z) → (validate_zip_code z).1 = false) ∧
    (∀ (k : IDKind) (num : String), id_format_ok k num = false →
      (validate_id_format k num).1 = false) ∧
    (∀ (first mi sur : String) (k : IDKind)
        (idn phone street barangay city province zip_code ts : String) (d : CustomerData),
      get_verified_personal_details first mi sur k idn phone street barangay city province
          zip_code ts = some d →
      name_field_ok first = true ∧ middle_initial_ok mi = true ∧ name_field_ok sur = true ∧
      government_id_ok k (pyUpper (pyStrip idn)) = true ∧
      (validate_phone_number phone).1 = true ∧
      street_ok street = true ∧ locality_ok barangay = true ∧ locality_ok city = true ∧
      locality_ok province = true ∧ (validate_zip_code zip_code).1 = true) := by
  refine ⟨?_, ?_, ?_, ?_, ?_⟩
  · intro s hex
    obtain ⟨c, hc, hd⟩ := hex
    have hall : s.toList.all (fun c => c.isAlpha || c.isWhitespace || (c == '-')) = false := by
      refine List.all_eq_false.mpr ⟨c, hc, ?_⟩
      rw [digit_not_name_char c hd]
      simp
    unfold name_field_ok
    rw [hall, Bool.and_false]
  · intro z h3
    simp only [validate_zip_code]
    split
    · rfl
    · split
      · rfl
      · split
        · rfl
        · next hlen =>
            exfalso
            simp only [bne_iff_ne, ne_eq, Decidable.not_not] at hlen
            omega
  · intro z hrange
    simp only [validate_zip_code]
    split
    · rfl
    · split
      · rfl
      · split
        · rfl
        · rfl
  · intro k num h
    simp [validate_id_format, h]
  · intro first mi sur k idn phone street barangay city province zip_code ts d hsome
    simp only [get_verified_personal_details] at hsome
    split at hsome
    · next h1 =>
        split at hsome
        · next h2 =>
            split at hsome
            · next h3 =>
                split at hsome
                · next address haddr =>
                    have hcond : (street_ok street && locality_ok barangay && locality_ok city
                        && locality_ok province && (validate_zip_code zip_code).1) = true := by
                      simp only [get_verified_address] at haddr
                      split at haddr
                      · next hcond2 => exact hcond2
                      · exact Option.noConfusion haddr
                    simp only [Bool.and_eq_true] at h1 h2 hcond
                    exact ⟨h1.1.1, h1.1.2, h1.2, h2.2, h3,
                      hcond.1.1.1.1, hcond.1.1.1.2, hcond.1.1.2, hcond.1.2, hcond.2⟩
                · exact Option.noConfusion hsome
            · exact Option.noConfusion hsome
        · exact Option.noConfusion hsome
    · exact Option.noConfusion hsome

/-- The identity the pipeline produces on one concrete set of valid
inputs. -/
def demoVerified : CustomerData :=
  { full_name := "Juan Cruz", id_type := "Passport", id_number := "AB123456"
  , contact := "09171234567", address := "12 Rizal St., Poblacion, Manila, Cavite 1000"
  , verified_at := "2024-01-01 10:00:00" }

theorem identity_validators_reject_witness :
    name_field_ok "J0hn" = false ∧
    (validate_zip_code "123").1 = false ∧
    (validate_zip_code "0500").1 = false ∧
    (validate_id_format .passport "123").1 = false ∧
    (name_field_ok "Juan" = true ∧ middle_initial_ok "" = true ∧ name_field_ok "Cruz" = true ∧
      government_id_ok .passport (pyUpper (pyStrip "AB123456")) = true ∧
      (validate_phone_number "09171234567").1 = true ∧
      street_ok "12 Rizal St." = true ∧ locality_ok "Poblacion" = true ∧
      locality_ok "Manila" = true ∧ locality_ok "Cavite" = true ∧
      (validate_zip_code "1000").1 = true) :=
  ⟨identity_validators_reject.1 "J0hn" (by decide),
   identity_validators_reject.2.1 "123" (by decide),
   identity_validators_reject.2.2.1 "0500" (Or.inl (by decide)),
   identity_validators_reject.2.2.2.1 .passport "123" (by decide),
   identity_validators_reject.2.2.2.2 "Juan" "" "Cruz" .passport "AB123456" "09171234567"
     "12 Rizal St." "Poblacion" "Manila" "Cavite" "1000" "2024-01-01 10:00:00"
     demoVerified (by decide)⟩

/-- ensure_csv over the backing store of one service: the file is a list of
rows keyed by the Seat column, or none when it does not exist; a missing
file is created with every layout seat Available, an existing file is left
as it is. -/
def ensure_csv (svc : String) (file : Option (List (String × SeatRec))) :
    List (String × SeatRec) :=
  match file with
  | none => (layoutFor svc).map (fun s => (s, initRec))
  | some rows => rows

/-- The dict built by the row loop of load_seats: later rows with the same
seat id overwrite earlier ones, exactly as repeated dict assignment. -/
def dictGet (rows : List (String × SeatRec)) (k : String) : Option SeatRec :=
  rows.foldl (fun acc p => if p.1 == k then some p.2 else acc) none

/-- load_seats: ensure the file exists, then read every row of it into the
seat dict. -/
def load_seats (svc : String) (file : Option (List (String × SeatRec))) :
    List (String × SeatRec) :=
  ensure_csv svc file

/-- save_seats: write one row per layout seat, defaulting a seat that is
missing from the in-memory dict to an Unavailable record with blank
fields. -/
def save_seats (svc : String) (seats : List (String × SeatRec)) :
    List (String × SeatRec) :=
  (layoutFor svc).map (fun s => (s, (dictGet seats s).getD (clearedRec "Unavailable" "")))

theorem dictGet_foldl_nomatch (k : String) (rows : List (String × SeatRec))
    (acc : Option SeatRec) (h : ∀ p ∈ rows, p.1 ≠ k) :
    rows.foldl (fun acc p => if p.1 == k then some p.2 else acc) acc = acc := by
  induction rows generalizing acc with
  | nil => rfl
  | cons w rest ih =>
      rw [List.foldl_cons]
      rw [ih _ (fun p hp => h p (List.mem_cons_of_mem _ hp))]
      exact if_neg (by simp [h w (List.mem_cons_self _ _)])

theorem dictGet_foldl_const (k : String) (v : SeatRec) (rows : List (String × SeatRec))
    (acc : Option SeatRec) (hv : ∀ p ∈ rows, p.2 = v) (hk : ∃ p ∈ rows, p.1 = k) :
    rows.foldl (fun acc p => if p.1 == k then some p.2 else acc) acc = some v := by
  induction rows generalizing acc with
  | nil =>
      obtain ⟨p, hp, -⟩ := hk
      exact absurd hp (List.not_mem_nil _)
  | cons w rest ih =>
      rw [List.foldl_cons]
      by_cases hr : ∃ p ∈ rest, p.1 = k
      · exact ih _ (fun p hp => hv p (List.mem_cons_of_mem _ hp)) hr
      · obtain ⟨p0, hp0, hk0⟩ := hk
        rcases List.mem_cons.mp hp0 with heq | hmem
        · subst heq
          rw [dictGet_foldl_nomatch k rest _ (fun p hp he => hr ⟨p, hp, he⟩)]
          rw [if_pos (beq_iff_eq.mpr hk0)]
          rw [hv p0 (List.mem_cons_self _ _)]
        · exact absurd ⟨p0, hmem, hk0⟩ hr

/-- C9 counterexample: the Cinema layout contains seat 1A, but loading an
existing backing file with no data rows yields a mapping not defined at 1A:
rows missing from an existing file are dropped rather than materialized as
Available, so load does not always cover the layout. -/
theorem load_partial_file_drops_seats_cex :
    "1A" ∈ layoutFor "C" ∧ dictGet (load_seats "C" (some [])) "1A" = none :=
  ⟨by decide, rfl⟩

/-- C9 (amended): load_seats is total over the layout only in the case the
backing file is absent entirely: a missing file is materialized with every
layout seat Available, so loading it yields a mapping defined on every
SeatId of the layout; an existing file is returned exactly as stored, so
seats absent from an existing file are dropped, not treated as
Available. -/
theorem load_total_only_when_file_missing :
    (∀ svc s, s ∈ layoutFor svc → dictGet (load_seats svc none) s = some initRec) ∧
    (∀ svc rows, load_seats svc (some rows) = rows) := by
  constructor
  · intro svc s hs
    unfold load_seats ensure_csv
    refine dictGet_foldl_const s initRec _ none ?_ ?_
    · intro p hp
      obtain ⟨x, hx, rfl⟩ := List.mem_map.mp hp
      rfl
    · exact ⟨(s, initRec), List.mem_map_of_mem _ hs, rfl⟩
  · intro svc rows
    rfl

theorem load_total_only_when_file_missing_witness :
    dictGet (load_seats "C" none) "1A" = some initRec ∧
    load_seats "C" (some [("2B", initRec)]) = [("2B", initRec)] :=
  ⟨load_total_only_when_file_missing.1 "C" "1A" (by decide),
   load_total_only_when_file_missing.2 "C" [("2B", initRec)]⟩

/-- The service display name map used by the ticket and report output. -/
def serviceName (svc : String) : String :=
  if svc = "C" then "Cinema"
  else if svc = "B" then "Bus"
  else if svc = "A" then "Airplane"
  else "Unknown"

/-- Python str.lower over the character list. -/
def pyLower (s : String) : String :=
  String.mk (s.toList.map Char.toLower)

/-- generate_verification_hash: the sha256 digest truncated to 16 hex
characters over the concatenation of service, seat, passenger, timestamp
and ID type; the digest function itself is a parameter of the embedding,
since the claims depend only on which fields feed it: the ID number is not
among them. -/
def generate_verification_hash (digest : String → String)
    (service seat passenger timestamp id_type : String) : String :=
  digest (service ++ seat ++ passenger ++ timestamp ++ id_type)

/-- safe_filename: keep alphanumerics, spaces, hyphens and dots, strip and
replace spaces with underscores. -/
def safe_filename (s : String) : String :=
  (pyStrip (String.mk (s.toList.filter
    (fun c => c.isAlphanum || c == ' ' || c == '-' || c == '.')))).replace " " "_"

/-- The rows of the enhanced digital ticket CSV written by
generate_digital_ticket: the passenger data, the ticket and price data, the
government ID type, the verification hash, and never the ID number; the
base price argument is accepted and unused exactly as in the source. -/
def generate_digital_ticket_rows (digest : String → String) (service_key seat_id : String)
    (customer_data : CustomerData) (ticket_type : String) (base_price final_price : ℚ)
    (timestamp : String) : List (List String) :=
  [ ["ENHANCED DIGITAL TICKET - VERIFIED IDENTITY"]
  , ["Service", serviceName service_key]
  , ["Seat", seat_id]
  , ["Passenger", customer_data.full_name]
  , ["Ticket Type", ticket_type]
  , ["Final Price", formatPrice final_price]
  , ["Timestamp", timestamp]
  , ["Contact", customer_data.contact]
  , ["Government ID Type", customer_data.id_type]
  , ["Verified At", customer_data.verified_at]
  , ["Address", customer_data.address]
  , ["Verification Hash", generate_verification_hash digest (serviceName service_key)
      seat_id customer_data.full_name timestamp customer_data.id_type]
  , []
  , ["THIS IS A VERIFIED TICKET WITH GOVERNMENT ID VALIDATION"] ]

/-- The filename of the enhanced ticket file. -/
def digital_ticket_filename (service_key seat_id : String) (customer_data : CustomerData) :
    String :=
  "ticket_" ++ pyLower (serviceName service_key) ++ "_" ++ seat_id ++ "_"
    ++ safe_filename customer_data.full_name ++ "_enhanced.csv"

/-- The rows of generate_ticket_csv: header and data row carry no ID number
column at all. -/
def generate_ticket_csv_rows (service_key seat_id name timestamp ticket_type : String)
    (base_price final_price : ℚ) (contact address : String) : List (List String) :=
  [ ["Service", "Seat", "Passenger", "TicketType", "BasePrice", "FinalPrice",
     "Timestamp", "Contact", "Address"]
  , [serviceName service_key, seat_id, name, ticket_type, formatPrice base_price,
     formatPrice final_price, timestamp, contact, address] ]

/-- Decimal parse of a stored price string, as float() applied by
pretty_price; the program only ever stores the two-decimal renderings of
nonnegative prices. -/
def parsePrice (s : String) : Option ℚ :=
  match s.splitOn "." with
  | [w] => (w.toNat?).map (fun n => (n : ℚ))
  | [w, f] =>
      match w.toNat?, f.toNat? with
      | some a, some b => some ((a : ℚ) + (b : ℚ) / ((10 : ℚ) ^ f.length))
      | _, _ => none
  | _ => none

/-- pretty_price over a stored price field: a blank field falls back to 0
through the or-default, an unparsable string is echoed as by the except
branch of pretty_price. -/
def prettyPriceField (s : String) : String :=
  match parsePrice (if s == "" then "0" else s) with
  | some q => pretty_price q
  | none => s

/-- The labelled field values show_ticket prints for a Taken record; the ID
number is not among them (the source removed that line). -/
def show_ticket_fields (service_key seat_id : String) (info : SeatRec) :
    List (String × String) :=
  [ ("Seat", seat_id)
  , ("Client", info.name)
  , ("Contact", info.contact)
  , ("Address", info.address)
  , ("Government ID Type", info.idType)
  , ("Verified At", info.verifiedAt)
  , ("Service", serviceName service_key)
  , ("TicketType", if info.ticketType == "" then "-" else info.ticketType)
  , ("Base Price", prettyPriceField info.basePrice)
  , ("Final Price", prettyPriceField info.finalPrice)
  , ("Booked At", info.timestamp) ]

/-- C10: ticket outputs never carry the raw government ID number: for any
digest function, two bookings differing only in the ID number produce
identical enhanced digital ticket file rows and an identical ticket
filename, two seat records differing only in the stored ID number produce
an identical displayed ticket snapshot, and yet the reservation record
itself does store the raw number. -/
theorem ticket_outputs_hide_id_number :
    ∀ (digest : String → String) (svc sid tt ts : String) (base final : ℚ)
      (c : CustomerData) (n : String) (r : SeatRec) (m : String),
      generate_digital_ticket_rows digest svc sid { c with id_number := n } tt base final ts =
        generate_digital_ticket_rows digest svc sid c tt base final ts ∧
      digital_ticket_filename svc sid { c with id_number := n } =
        digital_ticket_filename svc sid c ∧
      show_ticket_fields svc sid { r with idNumber := m } = show_ticket_fields svc sid r ∧
      (takenRec { c with id_number := n } tt base final ts).idNumber = n :=
  fun _ _ _ _ _ _ _ _ _ _ _ => ⟨rfl, rfl, rfl, rfl⟩

/-- A second verified customer for the conflict scenario. -/
def demoCustomer2 : CustomerData :=
  { full_name := "Pedro Reyes", id_type := "Passport", id_number := "EF987654"
  , contact := "09201234567", address := "3 Luna St., Poblacion, Davao, Davao 8000"
  , verified_at := "2024-01-04 11:00:00" }

/-- C6: moving a booking from a Taken source seat to an Available target
seat copies the occupant identity fields (name, contact, address, ID type,
ID number, verified-at), the ticket type and both price fields exactly;
only the timestamp (and the seat id) differ; the source seat becomes
Available with every occupant field cleared, and every other seat is
untouched. -/
theorem move_preserves_booking (st : Sys) (fromRaw toRaw ts : String)
    (hsrc : normalize_seat_id_input fromRaw ∈ layoutFor st.svc ∧
      (st.seats (normalize_seat_id_input fromRaw)).status = "Taken")
    (htgt : normalize_seat_id_input toRaw ∈ layoutFor st.svc ∧
      (st.seats (normalize_seat_id_input toRaw)).status = "Available") :
    ∃ st2, move_reservation st fromRaw toRaw ts = .ok st2 ∧
      (st2.seats (normalize_seat_id_input toRaw)).status = "Taken" ∧
      (st2.seats (normalize_seat_id_input toRaw)).name =
        (st.seats (normalize_seat_id_input fromRaw)).name ∧
      (st2.seats (normalize_seat_id_input toRaw)).contact =
        (st.seats (normalize_seat_id_input fromRaw)).contact ∧
      (st2.seats (normalize_seat_id_input toRaw)).address =
        (st.seats (normalize_seat_id_input fromRaw)).address ∧
      (st2.seats (normalize_seat_id_input toRaw)).idType =
        (st.seats (normalize_seat_id_input fromRaw)).idType ∧
      (st2.seats (normalize_seat_id_input toRaw)).idNumber =
        (st.seats (normalize_seat_id_input fromRaw)).idNumber ∧
      (st2.seats (normalize_seat_id_input toRaw)).verifiedAt =
        (st.seats (normalize_seat_id_input fromRaw)).verifiedAt ∧
      (st2.seats (normalize_seat_id_input toRaw)).ticketType =
        (st.seats (normalize_seat_id_input fromRaw)).ticketType ∧
      (st2.seats (normalize_seat_id_input toRaw)).basePrice =
        (st.seats (normalize_seat_id_input fromRaw)).basePrice ∧
      (st2.seats (normalize_seat_id_input toRaw)).finalPrice =
        (st.seats (normalize_seat_id_input fromRaw)).finalPrice ∧
      (st2.seats (normalize_seat_id_input toRaw)).timestamp = ts ∧
      st2.seats (normalize_seat_id_input fromRaw) = clearedRec "Available" ts ∧
      (∀ s, s ≠ normalize_seat_id_input fromRaw → s ≠ normalize_seat_id_input toRaw →
        st2.seats s = st.seats s) := by
  have hne : normalize_seat_id_input fromRaw ≠ normalize_seat_id_input toRaw := by
    intro h
    have h2 := hsrc.2
    rw [h, htgt.2] at h2
    exact absurd h2 (by decide)
  have hstep : move_reservation st fromRaw toRaw ts =
      .ok (moveCommit st (normalize_seat_id_input fromRaw) (normalize_seat_id_input toRaw) ts) := by
    simp only [move_reservation, if_pos hsrc, if_pos htgt]
  have htr : (moveCommit st (normalize_seat_id_input fromRaw)
        (normalize_seat_id_input toRaw) ts).seats (normalize_seat_id_input toRaw) =
      movedRec (st.seats (normalize_seat_id_input fromRaw)) ts := by
    simp [moveCommit, setSeat, Ne.symm hne]
  refine ⟨_, hstep, ?_, ?_, ?_, ?_, ?_, ?_, ?_, ?_, ?_, ?_, ?_, ?_, ?_⟩
  · rw [htr]; rfl
  · rw [htr]; rfl
  · rw [htr]; rfl
  · rw [htr]; rfl
  · rw [htr]; rfl
  · rw [htr]; rfl
  · rw [htr]; rfl
  · rw [htr]; rfl
  · rw [htr]; rfl
  · rw [htr]; rfl
  · rw [htr]; rfl
  · simp [moveCommit, setSeat]
  · intro s h1 h2
    simp [moveCommit, setSeat, if_neg h1, if_neg h2]

theorem move_preserves_booking_witness :
    (normalize_seat_id_input "1B" ∈ layoutFor demoBulkSt.svc ∧
      (demoBulkSt.seats (normalize_seat_id_input "1B")).status = "Taken") ∧
    (normalize_seat_id_input "5C" ∈ layoutFor demoBulkSt.svc ∧
      (demoBulkSt.seats (normalize_seat_id_input "5C")).status = "Available") ∧
    (∃ st2, move_reservation demoBulkSt "1B" "5C" "2024-01-05 12:00:00" = .ok st2 ∧
      (st2.seats (normalize_seat_id_input "5C")).status = "Taken" ∧
      (st2.seats (normalize_seat_id_input "5C")).name =
        (demoBulkSt.seats (normalize_seat_id_input "1B")).name ∧
      (st2.seats (normalize_seat_id_input "5C")).contact =
        (demoBulkSt.seats (normalize_seat_id_input "1B")).contact ∧
      (st2.seats (normalize_seat_id_input "5C")).address =
        (demoBulkSt.seats (normalize_seat_id_input "1B")).address ∧
      (st2.seats (normalize_seat_id_input "5C")).idType =
        (demoBulkSt.seats (normalize_seat_id_input "1B")).idType ∧
      (st2.seats (normalize_seat_id_input "5C")).idNumber =
        (demoBulkSt.seats (normalize_seat_id_input "1B")).idNumber ∧
      (st2.seats (normalize_seat_id_input "5C")).verifiedAt =
        (demoBulkSt.seats (normalize_seat_id_input "1B")).verifiedAt ∧
      (st2.seats (normalize_seat_id_input "5C")).ticketType =
        (demoBulkSt.seats (normalize_seat_id_input "1B")).ticketType ∧
      (st2.seats (normalize_seat_id_input "5C")).basePrice =
        (demoBulkSt.seats (normalize_seat_id_input "1B")).basePrice ∧
      (st2.seats (normalize_seat_id_input "5C")).finalPrice =
        (demoBulkSt.seats (normalize_seat_id_input "1B")).finalPrice ∧
      (st2.seats (normalize_seat_id_input "5C")).timestamp = "2024-01-05 12:00:00" ∧
      st2.seats (normalize_seat_id_input "1B") = clearedRec "Available" "2024-01-05 12:00:00" ∧
      (∀ s, s ≠ normalize_seat_id_input "1B" → s ≠ normalize_seat_id_input "5C" →
        st2.seats s = demoBulkSt.seats s)) :=
  ⟨⟨by decide, by decide⟩, ⟨by decide, by decide⟩,
   move_preserves_booking demoBulkSt "1B" "5C" "2024-01-05 12:00:00"
     ⟨by decide, by decide⟩ ⟨by decide, by decide⟩⟩

theorem second_reserve_conflict_witness :
    (normalize_seat_id_input "1A" ∈ layoutFor (initSys "C").svc) ∧
    ((initSys "C").seats (normalize_seat_id_input "1A")).status = "Available" ∧
    (∃ st1, reserve_seat (initSys "C") "1A" demoCustomer "Regular" "2024-01-04 11:00:00" = .ok st1 ∧
      st1.seats (normalize_seat_id_input "1A") =
        takenRec demoCustomer "Regular"
          (compute_price (initSys "C").svc "Regular").1
          (compute_price (initSys "C").svc "Regular").2 "2024-01-04 11:00:00" ∧
      (∀ s, s ≠ normalize_seat_id_input "1A" → st1.seats s = (initSys "C").seats s) ∧
      reserve_seat st1 "1A" demoCustomer2 "VIP" "2024-01-04 11:05:00" =
        .error (.alreadyTaken demoCustomer.full_name) ∧
      applyOp st1 (.reserve "1A" demoCustomer2 "VIP" "2024-01-04 11:05:00") = st1) :=
  ⟨by decide, rfl,
   second_reserve_conflict (initSys "C") "1A" demoCustomer demoCustomer2
     "Regular" "VIP" "2024-01-04 11:00:00" "2024-01-04 11:05:00" (by decide) rfl⟩

end Ticketing
